import Mathlib

/-!
Shallow embedding of `src/login-brute.py` (the `LoginTester` class and the
`load_credentials_from_file` helper), together with theorems settling the
claims about it.

Modelling conventions:
* Python dictionaries are insertion-ordered association lists
  (`PyDict := List (String × PyVal)`); `dict.update` and item assignment are
  modelled by `dictSet`/`dictUpdate`, which preserve the position of existing
  keys and append new ones, exactly as CPython does.
* The network is an oracle: each credential pair is mapped to a
  `TransportResult` (a completed HTTP response with its measured wall-clock
  time, or a `requests.RequestException` carrying its string form).
  Wall-clock measurement (including the `round(·, 3)` applied to it) is an
  external observation, supplied by the oracle as an opaque rational.
* An unexpected internal fault inside a worker of the thread pool (the
  `except Exception` arm of `_run_parallel`) is a second oracle mapping a
  pair to `Option String` (`some msg` meaning `future.result()` raised with
  string form `msg`).
* Thread-pool completion order is an explicit parameter: `_run_parallel` is
  given the list of pairs in the order their futures complete; theorems
  quantify over every permutation of the enumerated combinations.
* `print` calls and `time.sleep` pacing are side effects with no influence
  on the returned data and are not modelled.
-/

/-- A Python value as it occurs in this program's result records:
`None`, a bool, an int, a float (kept as an exact rational supplied by the
timing oracle) or a string. -/
inductive PyVal where
  | vnone
  | vbool (b : Bool)
  | vint (n : Int)
  | vfloat (q : ℚ)
  | vstr (s : String)
deriving DecidableEq, Repr

/-- A Python dict with string keys, as an insertion-ordered association list. -/
abbrev PyDict := List (String × PyVal)

/-- `d[k]` lookup returning `Option`: `d.get(k)` in Python. -/
def dictGet (d : PyDict) (k : String) : Option PyVal :=
  List.lookup k d

/-- The dict's keys, in insertion order (`d.keys()` in Python). -/
def dictKeys (d : PyDict) : List String :=
  d.map Prod.fst

/-- `d[k] = v`: overwrite in place when the key exists, append otherwise
(CPython preserves the position of an existing key). -/
def dictSet (d : PyDict) (k : String) (v : PyVal) : PyDict :=
  if d.any (fun kv => kv.1 == k) then
    d.map (fun kv => if kv.1 == k then (k, v) else kv)
  else
    d ++ [(k, v)]

/-- `d.update({...})`: assign each key of the literal in order. -/
def dictUpdate (d : PyDict) (kvs : List (String × PyVal)) : PyDict :=
  kvs.foldl (fun acc kv => dictSet acc kv.1 kv.2) d

/-- `a == b` on the first characters, i.e. `sub` is an initial segment of `l`. -/
def startsWithChars : List Char → List Char → Bool
  | [], _ => true
  | _ :: _, [] => false
  | a :: as, b :: bs => a == b && startsWithChars as bs

/-- `sub` occurs contiguously inside `l`. -/
def containsChars (sub : List Char) : List Char → Bool
  | [] => sub.isEmpty
  | c :: t => startsWithChars sub (c :: t) || containsChars sub t

/-- Python's `sub in s` on strings: substring containment. -/
def pyIn (sub s : String) : Bool :=
  containsChars sub.data s.data

/-- Python truthiness of an optional-string attribute: `None` and `""` are
falsy, every other string is truthy. -/
def optTruthy : Option String → Bool
  | Option.none => false
  | Option.some s => !s.isEmpty

/-- The string held by an optional-string attribute (only consulted under an
`optTruthy` guard, where it is never `None`). -/
def optStr : Option String → String
  | Option.none => ""
  | Option.some s => s

/-- The configuration state of a `LoginTester` instance (its `__init__`
parameters; `url`, `headers`, `timeout`, `delay` and `max_workers` do not
influence any modelled result and are carried for fidelity only). -/
structure LoginTester where
  url : String
  username_field : String := "username"
  password_field : String := "password"
  success_indicator : Option String := Option.none
  failure_indicator : Option String := Option.none
  timeout : Int := 10
  delay : ℚ := 1 / 2
  max_workers : Nat := 5
deriving DecidableEq, Repr

/-- An HTTP response as the classifier sees it: `response.status_code` and
`response.text`. -/
structure Response where
  status_code : Int
  text : String
deriving DecidableEq, Repr

/-- `LoginTester._is_successful_login`: success indicator first, then failure
indicator, then the status-code fallback. -/
def _is_successful_login (t : LoginTester) (response : Response) : Bool :=
  if optTruthy t.success_indicator && pyIn (optStr t.success_indicator) response.text then
    true
  else if optTruthy t.failure_indicator && pyIn (optStr t.failure_indicator) response.text then
    false
  else if response.status_code == 200 then
    true
  else
    false

lemma optTruthy_some (s : String) : optTruthy (Option.some s) = !s.isEmpty := rfl

lemma optTruthy_none : optTruthy Option.none = false := rfl

lemma isEmpty_empty_string : "".isEmpty = true := rfl

/-- C2: with both indicators configured (non-`None`, non-empty) and both
present in the body, the classifier answers success, whatever the status
code: rule 1 wins over rule 2 unconditionally. -/
theorem classifier_tie_break_success
    (t : LoginTester) (response : Response) (s f : String)
    (hs : t.success_indicator = Option.some s) (hsne : s ≠ "")
    (hf : t.failure_indicator = Option.some f) (hfne : f ≠ "")
    (hsin : pyIn s response.text = true)
    (hfin : pyIn f response.text = true) :
    _is_successful_login t response = true := by
  have hse : s.isEmpty = false := by
    cases h : s.isEmpty
    · rfl
    · exact absurd ((String.isEmpty_iff s).mp h) hsne
  unfold _is_successful_login
  rw [hs]
  simp [optTruthy_some, optStr, hse, hsin]

/-- C3: with neither indicator configured (`None`), the classifier returns
success exactly when the status code is 200, whatever the body says. -/
theorem classifier_status_fallback
    (t : LoginTester) (response : Response)
    (hs : t.success_indicator = Option.none)
    (hf : t.failure_indicator = Option.none) :
    _is_successful_login t response = true ↔ response.status_code = 200 := by
  unfold _is_successful_login
  rw [hs, hf]
  simp [optTruthy]

/-- C9: an empty-string indicator is falsy in Python, so it never fires its
rule: a tester whose indicators are `""` classifies exactly like one whose
indicators are `None`, for every response. -/
theorem classifier_empty_indicator_not_configured :
    ∀ (t : LoginTester) (response : Response),
      (_is_successful_login { t with success_indicator := Option.some "" } response
        = _is_successful_login { t with success_indicator := Option.none } response)
      ∧ (_is_successful_login { t with failure_indicator := Option.some "" } response
        = _is_successful_login { t with failure_indicator := Option.none } response) := by
  intro t response
  constructor <;> unfold _is_successful_login <;>
    simp [optTruthy_some, optTruthy_none, isEmpty_empty_string]

/-- The result of the one network call of an attempt, as seen by
`test_login`: a completed response with its measured wall-clock seconds, or
a raised `requests.RequestException` carried as its string form `str(e)`. -/
inductive TransportResult where
  | ok (response : Response) (elapsed : ℚ)
  | exn (msg : String)
deriving DecidableEq, Repr

/-- `LoginTester.test_login`: build the base result dict, perform the network
call (here: consult the oracle), then either merge in the response fields or
record the exception string, and return the dict. -/
def test_login (t : LoginTester) (transport : TransportResult)
    (username password : String) : PyDict :=
  let result : PyDict :=
    [("username", PyVal.vstr username),
     ("password", PyVal.vstr password),
     ("success", PyVal.vbool false),
     ("status_code", PyVal.vnone),
     ("response_time", PyVal.vnone),
     ("error", PyVal.vnone)]
  match transport with
  | TransportResult.ok response elapsed =>
      dictUpdate result
        [("status_code", PyVal.vint response.status_code),
         ("response_time", PyVal.vfloat elapsed),
         ("success", PyVal.vbool (_is_successful_login t response)),
         ("response_length", PyVal.vint response.text.length)]
  | TransportResult.exn msg =>
      dictSet result "error" (PyVal.vstr msg)

/-- What `_run_parallel` appends for one completed future: `test_login`'s
record when `future.result()` returns, or the bare four-field record built in
the `except Exception` arm when it raises (with `str(e) = msg`). -/
def futureResult (t : LoginTester)
    (transport : String → String → TransportResult)
    (internal : String → String → Option String)
    (username password : String) : PyDict :=
  match internal username password with
  | Option.some msg =>
      [("username", PyVal.vstr username),
       ("password", PyVal.vstr password),
       ("success", PyVal.vbool false),
       ("error", PyVal.vstr msg)]
  | Option.none => test_login t (transport username password) username password

/-- The list comprehension of `run_tests`:
`[(u, p) for u in usernames for p in passwords]`. -/
def test_combinations (usernames passwords : List String) : List (String × String) :=
  usernames.bind (fun u => passwords.map (fun p => (u, p)))

/-- `LoginTester._run_sequential` (pacing and printing dropped): one
`test_login` per combination, in enumeration order. -/
def _run_sequential (t : LoginTester)
    (transport : String → String → TransportResult)
    (combos : List (String × String)) : List PyDict :=
  combos.map (fun up => test_login t (transport up.1 up.2) up.1 up.2)

/-- `LoginTester._run_parallel`: one future per combination, drained with
`as_completed`; `completed` is the combinations in completion order, so a
theorem quantifies over every permutation of the enumerated combinations. -/
def _run_parallel (t : LoginTester)
    (transport : String → String → TransportResult)
    (internal : String → String → Option String)
    (completed : List (String × String)) : List PyDict :=
  completed.map (fun up => futureResult t transport internal up.1 up.2)

/-- `LoginTester.run_tests`: enumerate the Cartesian product and dispatch to
the sequential or the parallel runner. -/
def run_tests (t : LoginTester)
    (transport : String → String → TransportResult)
    (internal : String → String → Option String)
    (usernames passwords : List String) (parallel : Bool)
    (completed : List (String × String)) : List PyDict :=
  if parallel then
    _run_parallel t transport internal completed
  else
    _run_sequential t transport (test_combinations usernames passwords)

/-- The spec's three-valued attempt outcome. -/
inductive Outcome where
  | Success
  | Failure
  | Error
deriving DecidableEq, Repr

/-- The spec-level outcome of one attempt, read off the attempt's events: an
internal executor fault or a transport failure is `Error`, otherwise the
classifier's verdict on the completed response. -/
def attemptOutcome (t : LoginTester) (transport : TransportResult)
    (internal : Option String) : Outcome :=
  match internal with
  | Option.some _ => Outcome.Error
  | Option.none =>
      match transport with
      | TransportResult.exn _ => Outcome.Error
      | TransportResult.ok response _ =>
          if _is_successful_login t response then Outcome.Success else Outcome.Failure

/-- The `username` field of a record (all records of this program carry it as
a string). -/
def usernameOf (r : PyDict) : String :=
  match dictGet r "username" with
  | Option.some (PyVal.vstr s) => s
  | _ => ""

/-- The `password` field of a record. -/
def passwordOf (r : PyDict) : String :=
  match dictGet r "password" with
  | Option.some (PyVal.vstr s) => s
  | _ => ""

/-- The credential pair a record echoes. -/
def credsOf (r : PyDict) : String × String :=
  (usernameOf r, passwordOf r)

/-- The `status_code` field, flattened: `none` when the key is absent or its
value is Python `None`. -/
def statusOf (r : PyDict) : Option Int :=
  match dictGet r "status_code" with
  | Option.some (PyVal.vint n) => Option.some n
  | _ => Option.none

/-- The `error` field, flattened: `none` when the key is absent or its value
is Python `None`. -/
def errorOf (r : PyDict) : Option String :=
  match dictGet r "error" with
  | Option.some (PyVal.vstr s) => Option.some s
  | _ => Option.none

/-- Python truthiness of a `PyVal`. -/
def pyTruthy : PyVal → Bool
  | PyVal.vnone => false
  | PyVal.vbool b => b
  | PyVal.vint n => n != 0
  | PyVal.vfloat q => q != 0
  | PyVal.vstr s => !s.isEmpty

/-- Truthiness of `r.get(k)` (`None`, hence falsy, when the key is absent). -/
def getTruthy (r : PyDict) (k : String) : Bool :=
  match dictGet r k with
  | Option.some v => pyTruthy v
  | Option.none => false

lemma test_login_ok_eq (t : LoginTester) (response : Response) (elapsed : ℚ)
    (u p : String) :
    test_login t (TransportResult.ok response elapsed) u p =
      [("username", PyVal.vstr u),
       ("password", PyVal.vstr p),
       ("success", PyVal.vbool (_is_successful_login t response)),
       ("status_code", PyVal.vint response.status_code),
       ("response_time", PyVal.vfloat elapsed),
       ("error", PyVal.vnone),
       ("response_length", PyVal.vint response.text.length)] := rfl

lemma test_login_exn_eq (t : LoginTester) (msg : String) (u p : String) :
    test_login t (TransportResult.exn msg) u p =
      [("username", PyVal.vstr u),
       ("password", PyVal.vstr p),
       ("success", PyVal.vbool false),
       ("status_code", PyVal.vnone),
       ("response_time", PyVal.vnone),
       ("error", PyVal.vstr msg)] := rfl

lemma credsOf_futureResult (t : LoginTester) (transport : String → String → TransportResult)
    (internal : String → String → Option String) (u p : String) :
    credsOf (futureResult t transport internal u p) = (u, p) := by
  unfold futureResult
  cases internal u p
  · cases transport u p <;> rfl
  · rfl

lemma credsOf_test_login (t : LoginTester) (tr : TransportResult) (u p : String) :
    credsOf (test_login t tr u p) = (u, p) := by
  cases tr <;> rfl

lemma errorOf_test_login_ok (t : LoginTester) (response : Response) (elapsed : ℚ)
    (u p : String) :
    errorOf (test_login t (TransportResult.ok response elapsed) u p) = Option.none := rfl

lemma statusOf_test_login_ok (t : LoginTester) (response : Response) (elapsed : ℚ)
    (u p : String) :
    statusOf (test_login t (TransportResult.ok response elapsed) u p)
      = Option.some response.status_code := rfl

lemma errorOf_test_login_exn (t : LoginTester) (msg : String) (u p : String) :
    errorOf (test_login t (TransportResult.exn msg) u p) = Option.some msg := rfl

lemma statusOf_test_login_exn (t : LoginTester) (msg : String) (u p : String) :
    statusOf (test_login t (TransportResult.exn msg) u p) = Option.none := rfl

lemma errorOf_except_record (u p msg : String) :
    errorOf [("username", PyVal.vstr u), ("password", PyVal.vstr p),
      ("success", PyVal.vbool false), ("error", PyVal.vstr msg)]
      = Option.some msg := rfl

lemma statusOf_except_record (u p msg : String) :
    statusOf [("username", PyVal.vstr u), ("password", PyVal.vstr p),
      ("success", PyVal.vbool false), ("error", PyVal.vstr msg)]
      = Option.none := rfl

/-- C5: on every path of the program — completed transport, transport
exception, and the parallel runner's internal-exception arm — the produced
record has a non-`None` `error` field exactly when the attempt's outcome is
`Error`, and a non-`None` `status_code` field exactly when the outcome is
`Success` or `Failure`. -/
theorem record_field_invariant (t : LoginTester)
    (transport : String → String → TransportResult)
    (internal : String → String → Option String) (u p : String) :
    (errorOf (futureResult t transport internal u p) ≠ Option.none
      ↔ attemptOutcome t (transport u p) (internal u p) = Outcome.Error)
    ∧ (statusOf (futureResult t transport internal u p) ≠ Option.none
      ↔ (attemptOutcome t (transport u p) (internal u p) = Outcome.Success
          ∨ attemptOutcome t (transport u p) (internal u p) = Outcome.Failure)) := by
  cases hi : internal u p with
  | none =>
      cases htr : transport u p with
      | ok response elapsed =>
          by_cases hc : _is_successful_login t response = true <;>
            simp [futureResult, attemptOutcome, hi, htr, hc,
              errorOf_test_login_ok, statusOf_test_login_ok]
      | exn msg =>
          simp [futureResult, attemptOutcome, hi, htr,
            errorOf_test_login_exn, statusOf_test_login_exn]
  | some msg =>
      simp [futureResult, attemptOutcome, hi,
        errorOf_except_record, statusOf_except_record]

lemma usernameOf_test_login (t : LoginTester) (tr : TransportResult) (u p : String) :
    usernameOf (test_login t tr u p) = u := by
  cases tr <;> rfl

lemma passwordOf_test_login (t : LoginTester) (tr : TransportResult) (u p : String) :
    passwordOf (test_login t tr u p) = p := by
  cases tr <;> rfl

lemma futureResult_no_internal (t : LoginTester)
    (transport : String → String → TransportResult)
    (internal : String → String → Option String) (u p : String)
    (h : internal u p = Option.none) :
    futureResult t transport internal u p = test_login t (transport u p) u p := by
  unfold futureResult
  rw [h]

/-- C7: in both modes, when the executor itself does not fault, every record
of a run reflects its own pair's transport result: a transport-level failure
is recovered locally into that one record — `error` set to the exception's
string form, `status_code` left `None` — while every pair whose transport
call completed gets a normal record with its status code set and no error.
No exception escapes the runners: `run_tests` is total and yields a record
for every pair. -/
theorem transport_error_recovered_locally (t : LoginTester)
    (transport : String → String → TransportResult)
    (internal : String → String → Option String)
    (usernames passwords : List String) (parallel : Bool)
    (completed : List (String × String))
    (hperm : completed.Perm (test_combinations usernames passwords))
    (hint : ∀ u p, internal u p = Option.none) :
    ∀ r ∈ run_tests t transport internal usernames passwords parallel completed,
      (∀ msg, transport (usernameOf r) (passwordOf r) = TransportResult.exn msg →
          errorOf r = Option.some msg ∧ statusOf r = Option.none)
      ∧ (∀ response elapsed,
          transport (usernameOf r) (passwordOf r) = TransportResult.ok response elapsed →
          statusOf r = Option.some response.status_code ∧ errorOf r = Option.none) := by
  intro r hr
  have hfr : ∃ up : String × String, r = test_login t (transport up.1 up.2) up.1 up.2 := by
    unfold run_tests _run_parallel _run_sequential at hr
    cases parallel with
    | true =>
        simp only [if_true] at hr
        obtain ⟨up, _, heq⟩ := List.mem_map.mp hr
        exact ⟨up, by rw [← heq, futureResult_no_internal t transport internal _ _ (hint _ _)]⟩
    | false =>
        simp only [Bool.false_eq_true, if_false] at hr
        obtain ⟨up, _, heq⟩ := List.mem_map.mp hr
        exact ⟨up, heq.symm⟩
  obtain ⟨up, hrq⟩ := hfr
  have hu : usernameOf r = up.1 := by rw [hrq, usernameOf_test_login]
  have hp : passwordOf r = up.2 := by rw [hrq, passwordOf_test_login]
  rw [hu, hp]
  constructor
  · intro msg hmsg
    rw [hrq, hmsg, errorOf_test_login_exn, statusOf_test_login_exn]
    exact ⟨rfl, rfl⟩
  · intro response elapsed hok
    rw [hrq, hok, errorOf_test_login_ok, statusOf_test_login_ok]
    exact ⟨rfl, rfl⟩

lemma test_combinations_cons (u : String) (us ps : List String) :
    test_combinations (u :: us) ps
      = ps.map (fun p => (u, p)) ++ test_combinations us ps := rfl

lemma length_test_combinations (us ps : List String) :
    (test_combinations us ps).length = us.length * ps.length := by
  induction us with
  | nil => simp [test_combinations]
  | cons u us ih =>
      rw [test_combinations_cons]
      simp [ih, Nat.succ_mul, Nat.add_comm]

lemma credsOf_map_sequential (t : LoginTester)
    (transport : String → String → TransportResult)
    (combos : List (String × String)) :
    (_run_sequential t transport combos).map credsOf = combos := by
  induction combos with
  | nil => rfl
  | cons up rest ih =>
      simp only [_run_sequential, List.map_cons, credsOf_test_login, Prod.mk.eta] at ih ⊢
      rw [ih]

lemma credsOf_map_parallel (t : LoginTester)
    (transport : String → String → TransportResult)
    (internal : String → String → Option String)
    (completed : List (String × String)) :
    (_run_parallel t transport internal completed).map credsOf = completed := by
  induction completed with
  | nil => rfl
  | cons up rest ih =>
      simp only [_run_parallel, List.map_cons, credsOf_futureResult, Prod.mk.eta] at ih ⊢
      rw [ih]

/-- C1: for non-empty username and password lists, both modes return exactly
`|usernames| * |passwords|` records; the credential pairs echoed by the
sequential run's records are exactly the enumerated Cartesian product, and
those of the parallel run are a permutation of it — one record per pair,
none duplicated, none dropped — whatever the transport oracle and the
internal-fault oracle do. -/
theorem run_tests_complete (t : LoginTester)
    (transport : String → String → TransportResult)
    (internal : String → String → Option String)
    (usernames passwords : List String)
    (completed : List (String × String))
    (hu : usernames ≠ []) (hp : passwords ≠ [])
    (hperm : completed.Perm (test_combinations usernames passwords)) :
    ((run_tests t transport internal usernames passwords false completed).length
        = usernames.length * passwords.length)
    ∧ ((run_tests t transport internal usernames passwords true completed).length
        = usernames.length * passwords.length)
    ∧ ((run_tests t transport internal usernames passwords false completed).map credsOf
        = test_combinations usernames passwords)
    ∧ ((run_tests t transport internal usernames passwords true completed).map credsOf).Perm
        (test_combinations usernames passwords) := by
  unfold run_tests
  simp only [Bool.false_eq_true, if_false, if_true]
  refine ⟨?_, ?_, ?_, ?_⟩
  · unfold _run_sequential
    rw [List.length_map, length_test_combinations]
  · unfold _run_parallel
    rw [List.length_map, hperm.length_eq, length_test_combinations]
  · exact credsOf_map_sequential t transport _
  · rw [credsOf_map_parallel]
    exact hperm

lemma test_combinations_getElem? (us ps : List String) :
    ∀ i : Nat, 0 < ps.length → i < us.length * ps.length →
      ∃ u p, us[i / ps.length]? = Option.some u
        ∧ ps[i % ps.length]? = Option.some p
        ∧ (test_combinations us ps)[i]? = Option.some (u, p) := by
  induction us with
  | nil =>
      intro i _ hi
      rw [List.length_nil, Nat.zero_mul] at hi
      exact absurd hi (Nat.not_lt_zero _)
  | cons u us ih =>
      intro i hn hi
      by_cases hin : i < ps.length
      · have hdiv : i / ps.length = 0 := Nat.div_eq_of_lt hin
        have hmod : i % ps.length = i := Nat.mod_eq_of_lt hin
        refine ⟨u, ps.get ⟨i, hin⟩, ?_, ?_, ?_⟩
        · rw [hdiv, List.getElem?_cons_zero]
        · rw [hmod, List.getElem?_eq_getElem hin]; rfl
        · rw [test_combinations_cons, List.getElem?_append]
          rw [if_pos (by rw [List.length_map]; exact hin)]
          rw [List.getElem?_map, List.getElem?_eq_getElem hin]
          rfl
      · have hni : ps.length ≤ i := Nat.le_of_not_lt hin
        obtain ⟨j, rfl⟩ : ∃ j, i = ps.length + j := ⟨i - ps.length, by omega⟩
        have hdiv : (ps.length + j) / ps.length = j / ps.length + 1 := by
          rw [Nat.add_comm, Nat.add_div_right _ hn]
        have hmod : (ps.length + j) % ps.length = j % ps.length :=
          Nat.add_mod_left _ _
        have hj : j < us.length * ps.length := by
          rw [List.length_cons, Nat.succ_mul] at hi
          omega
        obtain ⟨u', p', h1, h2, h3⟩ := ih j hn hj
        refine ⟨u', p', ?_, ?_, ?_⟩
        · rw [hdiv, List.getElem?_cons_succ]
          exact h1
        · rw [hmod]
          exact h2
        · rw [test_combinations_cons, List.getElem?_append]
          rw [if_neg (by rw [List.length_map]; omega)]
          rw [List.length_map, Nat.add_sub_cancel_left]
          exact h3

/-- C4: in sequential mode, the i-th record (0-indexed) of the returned
sequence echoes the pair
`(usernames[i / |passwords|], passwords[i mod |passwords|])`: username-major
enumeration order — every username in input order and, for each username,
every password in input order. -/
theorem sequential_order_username_major (t : LoginTester)
    (transport : String → String → TransportResult)
    (internal : String → String → Option String)
    (usernames passwords : List String)
    (completed : List (String × String)) (i : Nat)
    (hi : i < usernames.length * passwords.length)
    (hp : passwords ≠ []) :
    ∃ u p, usernames[i / passwords.length]? = Option.some u
      ∧ passwords[i % passwords.length]? = Option.some p
      ∧ ((run_tests t transport internal usernames passwords false completed).map
          credsOf)[i]? = Option.some (u, p) := by
  have hn : 0 < passwords.length := List.length_pos.mpr hp
  obtain ⟨u, p, h1, h2, h3⟩ := test_combinations_getElem? usernames passwords i hn hi
  refine ⟨u, p, h1, h2, ?_⟩
  unfold run_tests
  simp only [Bool.false_eq_true, if_false]
  rw [credsOf_map_sequential, h3]

/-- The summary `LoginTester.generate_report` computes (console rendering
dropped; the code prints `success_rate * 100` with a percent sign). -/
structure ReportSummary where
  total : Nat
  successful : Nat
  failed : Nat
  success_rate : ℚ
deriving DecidableEq, Repr

/-- `LoginTester.generate_report`: `None` models the early return on an empty
result list ("No results to report") — in particular the division by `total`
is never reached there; otherwise the totals the report prints. -/
def generate_report (results : List PyDict) : Option ReportSummary :=
  if results.isEmpty then
    Option.none
  else
    let total := results.length
    let successful := results.countP (fun r => getTruthy r "success")
    let failed := total - successful
    Option.some ⟨total, successful, failed, (successful : ℚ) / (total : ℚ)⟩

lemma getTruthy_success_ok (t : LoginTester) (response : Response) (elapsed : ℚ)
    (u p : String) :
    getTruthy (test_login t (TransportResult.ok response elapsed) u p) "success"
      = _is_successful_login t response := rfl

lemma getTruthy_success_exn (t : LoginTester) (msg : String) (u p : String) :
    getTruthy (test_login t (TransportResult.exn msg) u p) "success" = false := rfl

lemma getTruthy_success_except_record (u p msg : String) :
    getTruthy [("username", PyVal.vstr u), ("password", PyVal.vstr p),
      ("success", PyVal.vbool false), ("error", PyVal.vstr msg)] "success"
      = false := rfl

lemma success_truthy_iff_outcome_success (t : LoginTester)
    (transport : String → String → TransportResult)
    (internal : String → String → Option String) (u p : String) :
    getTruthy (futureResult t transport internal u p) "success"
      = decide (attemptOutcome t (transport u p) (internal u p) = Outcome.Success) := by
  cases hi : internal u p with
  | some msg =>
      simp only [futureResult, attemptOutcome, hi, getTruthy_success_except_record]
      rfl
  | none =>
      cases htr : transport u p with
      | ok response elapsed =>
          cases hc : _is_successful_login t response <;>
            simp [futureResult, attemptOutcome, hi, htr, hc, getTruthy_success_ok]
      | exn msg =>
          simp only [futureResult, attemptOutcome, hi, htr, getTruthy_success_exn]
          rfl

lemma countP_success_parallel (t : LoginTester)
    (transport : String → String → TransportResult)
    (internal : String → String → Option String)
    (completed : List (String × String)) :
    (_run_parallel t transport internal completed).countP (fun r => getTruthy r "success")
      = completed.countP (fun up =>
          decide (attemptOutcome t (transport up.1 up.2) (internal up.1 up.2)
            = Outcome.Success)) := by
  unfold _run_parallel
  rw [List.countP_map]
  apply List.countP_congr
  intro up _
  simp [Function.comp, success_truthy_iff_outcome_success]

lemma countP_success_sequential (t : LoginTester)
    (transport : String → String → TransportResult)
    (combos : List (String × String)) :
    (_run_sequential t transport combos).countP (fun r => getTruthy r "success")
      = combos.countP (fun up =>
          decide (attemptOutcome t (transport up.1 up.2) Option.none
            = Outcome.Success)) := by
  unfold _run_sequential
  rw [List.countP_map]
  apply List.countP_congr
  intro up _
  have h := success_truthy_iff_outcome_success t transport (fun _ _ => Option.none) up.1 up.2
  rw [futureResult_no_internal t transport _ up.1 up.2 rfl] at h
  simp [Function.comp, h]

lemma generate_report_nonempty (results : List PyDict) (h : results ≠ []) :
    generate_report results
      = Option.some ⟨results.length,
          results.countP (fun r => getTruthy r "success"),
          results.length - results.countP (fun r => getTruthy r "success"),
          ((results.countP (fun r => getTruthy r "success") : ℚ)
            / (results.length : ℚ))⟩ := by
  unfold generate_report
  rw [if_neg (by simp [List.isEmpty_iff, h])]

/-- C6: for every run of either mode with non-empty inputs, the report counts
`succeeded` as exactly the number of attempts whose outcome is `Success`
(a `Failure` or `Error` outcome counts toward `failed`),
`succeeded + failed = total`, and `success_rate = succeeded / total`; on an
empty result list the report returns early, so the division is guarded. -/
theorem report_summary_correct (t : LoginTester)
    (transport : String → String → TransportResult)
    (internal : String → String → Option String)
    (usernames passwords : List String)
    (completed : List (String × String))
    (hu : usernames ≠ []) (hp : passwords ≠ [])
    (hperm : completed.Perm (test_combinations usernames passwords)) :
    (∃ s : ReportSummary,
      generate_report (run_tests t transport internal usernames passwords false completed)
          = Option.some s
        ∧ s.total = usernames.length * passwords.length
        ∧ s.successful = (test_combinations usernames passwords).countP
            (fun up => decide (attemptOutcome t (transport up.1 up.2) Option.none
              = Outcome.Success))
        ∧ s.successful + s.failed = s.total
        ∧ s.success_rate = (s.successful : ℚ) / (s.total : ℚ))
    ∧ (∃ s : ReportSummary,
      generate_report (run_tests t transport internal usernames passwords true completed)
          = Option.some s
        ∧ s.total = usernames.length * passwords.length
        ∧ s.successful = completed.countP
            (fun up => decide (attemptOutcome t (transport up.1 up.2) (internal up.1 up.2)
              = Outcome.Success))
        ∧ s.successful + s.failed = s.total
        ∧ s.success_rate = (s.successful : ℚ) / (s.total : ℚ))
    ∧ generate_report [] = Option.none := by
  have hmn : 0 < usernames.length * passwords.length :=
    Nat.mul_pos (List.length_pos.mpr hu) (List.length_pos.mpr hp)
  refine ⟨?_, ?_, rfl⟩
  · have hlen : (run_tests t transport internal usernames passwords false completed).length
        = usernames.length * passwords.length := by
      unfold run_tests _run_sequential
      simp only [Bool.false_eq_true, if_false, List.length_map]
      exact length_test_combinations usernames passwords
    have hne : run_tests t transport internal usernames passwords false completed ≠ [] := by
      intro h
      rw [h] at hlen
      exact absurd hlen.symm (Nat.ne_of_gt hmn)
    refine ⟨_, generate_report_nonempty _ hne, by rw [hlen], ?_, ?_, rfl⟩
    · show (run_tests t transport internal usernames passwords false completed).countP _ = _
      unfold run_tests
      simp only [Bool.false_eq_true, if_false]
      exact countP_success_sequential t transport _
    · dsimp only
      have hle := List.countP_le_length
        (p := fun r => getTruthy r "success")
        (l := run_tests t transport internal usernames passwords false completed)
      omega
  · have hlen : (run_tests t transport internal usernames passwords true completed).length
        = usernames.length * passwords.length := by
      unfold run_tests _run_parallel
      simp only [if_true, List.length_map]
      rw [hperm.length_eq]
      exact length_test_combinations usernames passwords
    have hne : run_tests t transport internal usernames passwords true completed ≠ [] := by
      intro h
      rw [h] at hlen
      exact absurd hlen.symm (Nat.ne_of_gt hmn)
    refine ⟨_, generate_report_nonempty _ hne, by rw [hlen], ?_, ?_, rfl⟩
    · show (run_tests t transport internal usernames passwords true completed).countP _ = _
      unfold run_tests
      simp only [if_true]
      exact countP_success_parallel t transport internal completed
    · dsimp only
      have hle := List.countP_le_length
        (p := fun r => getTruthy r "success")
        (l := run_tests t transport internal usernames passwords true completed)
      omega

/-- The whitespace characters `str.strip()` removes (the ASCII ones; Python
also treats `\x0b` and `\x0c` as whitespace). -/
def isPySpace (c : Char) : Bool :=
  c == ' ' || c == '\t' || c == '\n' || c == '\r' || c == '\x0b' || c == '\x0c'

/-- Python `str.strip()`: drop leading and trailing whitespace. -/
def pyStrip (s : String) : String :=
  String.mk (((s.data.dropWhile isPySpace).reverse.dropWhile isPySpace).reverse)

/-- `load_credentials_from_file`: the opened file object is modelled as the
sequence of lines iteration yields (each line carrying its trailing newline);
the body is the comprehension `[line.strip() for line in f if line.strip()]`. -/
def load_credentials_from_file (fileLines : List String) : List String :=
  (fileLines.filter (fun line => !(pyStrip line).isEmpty)).map (fun line => pyStrip line)

lemma load_credentials_eq_map_filter (fileLines : List String) :
    load_credentials_from_file fileLines
      = (fileLines.map pyStrip).filter (fun s => !s.isEmpty) := by
  induction fileLines with
  | nil => rfl
  | cons a l ih =>
      unfold load_credentials_from_file at ih ⊢
      cases h : (pyStrip a).isEmpty <;>
        simp [List.filter_cons, h, ih]

lemma pyStrip_eq_empty_iff (s : String) :
    pyStrip s = "" ↔ s.data.all isPySpace = true := by
  unfold pyStrip
  constructor
  · intro h
    have hdata : ((s.data.dropWhile isPySpace).reverse.dropWhile isPySpace).reverse = [] := by
      have := congrArg String.data h
      simpa using this
    rw [List.reverse_eq_nil_iff, List.dropWhile_eq_nil_iff] at hdata
    rw [List.all_eq_true]
    intro x hx
    rcases List.mem_append.mp
        ((List.takeWhile_append_dropWhile (p := isPySpace) (l := s.data)) ▸ hx) with hx1 | hx2
    · exact List.mem_takeWhile_imp hx1
    · exact hdata x (List.mem_reverse.mpr hx2)
  · intro h
    have h1 : s.data.dropWhile isPySpace = [] :=
      List.dropWhile_eq_nil_iff.mpr (fun x hx => List.all_eq_true.mp h x hx)
    rw [h1]
    rfl

/-- C10: loading credentials strips leading and trailing whitespace from
every kept line (not merely blank-line discarding) and keeps file order: the
result is the stripped lines with the empty ones removed, a line is dropped
exactly when it consists only of whitespace, and a line like
`"  admin  "` comes back as `"admin"`. -/
theorem load_credentials_strips_and_filters :
    ∀ fileLines : List String,
      load_credentials_from_file fileLines
          = (fileLines.map pyStrip).filter (fun s => !s.isEmpty)
      ∧ (∀ s : String, pyStrip s = "" ↔ s.data.all isPySpace = true)
      ∧ pyStrip "  admin  " = "admin" := by
  intro fileLines
  exact ⟨load_credentials_eq_map_filter fileLines, pyStrip_eq_empty_iff, by decide⟩

/-- How the `csv` module renders one cell value: `None` becomes the empty
cell, a bool its `str()` form, a number its decimal form, a string itself.
The exact float rendering is immaterial to the claims; `toString` stands in
for `str()` on the oracle-supplied rational. -/
def cellStr : PyVal → String
  | PyVal.vnone => ""
  | PyVal.vbool true => "True"
  | PyVal.vbool false => "False"
  | PyVal.vint n => toString n
  | PyVal.vfloat q => toString q
  | PyVal.vstr s => s

/-- The cell `csv.DictWriter` writes for field `k` of record `d`:
`rowdict.get(k, restval)` rendered as a cell — a missing key (the default
`restval = ""`) and a `None` value both yield the empty cell. -/
def cellOf (d : PyDict) (k : String) : String :=
  match dictGet d k with
  | Option.some v => cellStr v
  | Option.none => ""

/-- One `csv.DictWriter` row with the default `extrasaction = "raise"`: an
error when the dict has a key outside `fieldnames`, otherwise one cell per
field name. -/
def writeDictRow (fieldnames : List String) (d : PyDict) : Except String (List String) :=
  if d.any (fun kv => !fieldnames.contains kv.1) then
    Except.error "dict contains fields not in fieldnames"
  else
    Except.ok (fieldnames.map (fun k => cellOf d k))

/-- The CSV branch of `LoginTester.save_results`, at the level of rows of
cells (the `csv` module's quoting and unquoting of a single row is an
external collaborator that round-trips a row of cells exactly): the header
row is the first record's field names (`results[0].keys()`), then
`writerows` emits one row per record. An empty result list prints
"No results to save" and writes nothing. -/
def save_results_csv (results : List PyDict) : Except String (List (List String)) :=
  match results with
  | [] => Except.ok []
  | first :: _ =>
      match results.mapM (writeDictRow (dictKeys first)) with
      | Except.error e => Except.error e
      | Except.ok rows => Except.ok (dictKeys first :: rows)

/-- Modelled from the spec: the read-back side of the round-trip property
("persisting a Test Run to the tabular format and reading it back") — the
repository only ever writes CSV, so reading is standard `csv.DictReader`
semantics: the first row is the header, and each further row becomes a
record mapping each field name to that cell's string. -/
def read_csv_dicts (rows : List (List String)) : List PyDict :=
  match rows with
  | [] => []
  | header :: body => body.map (fun row => header.zip (row.map PyVal.vstr))

/-- A record with every value coerced to its CSV cell string. -/
def stringifyDict (d : PyDict) : PyDict :=
  d.map (fun kv => (kv.1, PyVal.vstr (cellStr kv.2)))

/-- C8 counterexample: a parallel run the program can produce — one future
raises internally and completes first, the other returns normally — yields a
result list whose first record has only four fields while the second has
seven; `csv.DictWriter` (default `extrasaction = "raise"`) then refuses the
second row, so persisting fails and no round trip is possible. The second
conjunct checks the completion order really is a permutation of the
enumerated combinations, i.e. this is a genuine run. -/
theorem csv_round_trip_counterexample :
    save_results_csv (run_tests { url := "http://target/login" }
        (fun _ _ => TransportResult.ok ⟨200, "ok"⟩ 0)
        (fun _ p => if p == "p1" then Option.some "boom" else Option.none)
        ["x"] ["p1", "p2"] true [("x", "p1"), ("x", "p2")])
      = Except.error "dict contains fields not in fieldnames"
    ∧ [("x", "p1"), ("x", "p2")].Perm (test_combinations ["x"] ["p1", "p2"]) := by
  constructor
  · rfl
  · decide

lemma zip_self_map {α β : Type} (l : List α) (g : α → β) :
    l.zip (l.map g) = l.map (fun a => (a, g a)) := by
  induction l with
  | nil => rfl
  | cons a t ih => simp [List.zip_cons_cons, ih]

lemma cellOf_cons_self (k₀ : String) (v₀ : PyVal) (d : PyDict) :
    cellOf ((k₀, v₀) :: d) k₀ = cellStr v₀ := by
  simp [cellOf, dictGet, List.lookup]

lemma cellOf_cons_ne (k k₀ : String) (v₀ : PyVal) (d : PyDict)
    (h : (k == k₀) = false) :
    cellOf ((k₀, v₀) :: d) k = cellOf d k := by
  simp [cellOf, dictGet, List.lookup, h]

lemma keys_map_cell_eq_stringify (d : PyDict) (hnodup : (dictKeys d).Nodup) :
    (dictKeys d).map (fun k => (k, PyVal.vstr (cellOf d k))) = stringifyDict d := by
  induction d with
  | nil => rfl
  | cons kv d ih =>
      obtain ⟨k₀, v₀⟩ := kv
      have hcons : dictKeys ((k₀, v₀) :: d) = k₀ :: dictKeys d := rfl
      rw [hcons, List.nodup_cons] at hnodup
      obtain ⟨hk₀, hnd⟩ := hnodup
      rw [hcons, List.map_cons, cellOf_cons_self]
      have htail : ∀ k ∈ dictKeys d,
          (fun k => (k, PyVal.vstr (cellOf ((k₀, v₀) :: d) k))) k
            = (fun k => (k, PyVal.vstr (cellOf d k))) k := by
        intro k hk
        have hne : (k == k₀) = false := by
          rw [beq_eq_false_iff_ne]
          exact fun hkk => hk₀ (hkk ▸ hk)
        simp only [cellOf_cons_ne k k₀ v₀ d hne]
      rw [List.map_congr_left htail, ih hnd]
      rfl

lemma writeDictRow_same_keys (fieldnames : List String) (d : PyDict)
    (hkeys : dictKeys d = fieldnames) :
    writeDictRow fieldnames d
      = Except.ok (fieldnames.map (fun k => cellOf d k)) := by
  unfold writeDictRow
  rw [if_neg]
  intro hany
  obtain ⟨kv, hmem, hnotin⟩ := List.any_eq_true.mp hany
  have : kv.1 ∈ dictKeys d := List.mem_map.mpr ⟨kv, hmem, rfl⟩
  rw [hkeys] at this
  have hc : fieldnames.contains kv.1 = true := by
    show fieldnames.elem kv.1 = true
    exact List.elem_iff.mpr this
  rw [hc] at hnotin
  simp at hnotin

lemma mapM_writeDictRow_ok (fieldnames : List String) (l : List PyDict)
    (h : ∀ d ∈ l, dictKeys d = fieldnames) :
    l.mapM (writeDictRow fieldnames)
      = Except.ok (l.map (fun d => fieldnames.map (fun k => cellOf d k))) := by
  induction l with
  | nil => rfl
  | cons d l ih =>
      rw [List.mapM_cons, writeDictRow_same_keys fieldnames d (h d (List.mem_cons_self d l))]
      rw [ih (fun d' hd' => h d' (List.mem_cons_of_mem d hd'))]
      rfl

/-- C8 (amended): for every non-empty result list in which each record has
exactly the field names of the first record (in the same order, with the
names distinct — as any Python dict's keys are), saving to CSV succeeds with
the header plus one row per record, and reading the rows back yields every
record, in the original order, with each field value coerced to its cell
string: nothing lost, reordered, or changed beyond the coercion. -/
theorem csv_round_trip_homogeneous (first : PyDict) (rest : List PyDict)
    (hkeys : ∀ r ∈ first :: rest, dictKeys r = dictKeys first)
    (hnodup : (dictKeys first).Nodup) :
    ∃ rows, save_results_csv (first :: rest) = Except.ok (dictKeys first :: rows)
      ∧ read_csv_dicts (dictKeys first :: rows)
          = (first :: rest).map stringifyDict := by
  refine ⟨(first :: rest).map (fun d => (dictKeys first).map (fun k => cellOf d k)),
    ?_, ?_⟩
  · show (match (first :: rest).mapM (writeDictRow (dictKeys first)) with
        | Except.error e => Except.error e
        | Except.ok rows => Except.ok (dictKeys first :: rows))
        = Except.ok (dictKeys first
            :: (first :: rest).map (fun d => (dictKeys first).map (fun k => cellOf d k)))
    rw [mapM_writeDictRow_ok (dictKeys first) (first :: rest) hkeys]
  · show List.map (fun row => (dictKeys first).zip (row.map PyVal.vstr))
        ((first :: rest).map (fun d => (dictKeys first).map (fun k => cellOf d k)))
        = (first :: rest).map stringifyDict
    rw [List.map_map]
    apply List.map_congr_left
    intro d hd
    simp only [Function.comp_apply]
    rw [List.map_map, zip_self_map]
    simp only [Function.comp_apply, Function.comp]
    have hd' : dictKeys d = dictKeys first := hkeys d hd
    rw [← hd']
    have hnd : (dictKeys d).Nodup := hd' ▸ hnodup
    exact keys_map_cell_eq_stringify d hnd

/-- Witness for the amended C8 on two homogeneous records produced by
`test_login` on completed transports. -/
theorem csv_round_trip_homogeneous_witness :
    (∀ r ∈ [test_login { url := "http://target/login" }
        (TransportResult.ok ⟨200, "welcome"⟩ 0) "alice" "pw1",
      test_login { url := "http://target/login" }
        (TransportResult.ok ⟨403, "denied"⟩ 0) "alice" "pw2"],
      dictKeys r = dictKeys (test_login { url := "http://target/login" }
        (TransportResult.ok ⟨200, "welcome"⟩ 0) "alice" "pw1"))
    ∧ (dictKeys (test_login { url := "http://target/login" }
        (TransportResult.ok ⟨200, "welcome"⟩ 0) "alice" "pw1")).Nodup
    ∧ (∃ rows, save_results_csv [test_login { url := "http://target/login" }
          (TransportResult.ok ⟨200, "welcome"⟩ 0) "alice" "pw1",
        test_login { url := "http://target/login" }
          (TransportResult.ok ⟨403, "denied"⟩ 0) "alice" "pw2"]
        = Except.ok (dictKeys (test_login { url := "http://target/login" }
            (TransportResult.ok ⟨200, "welcome"⟩ 0) "alice" "pw1") :: rows)
      ∧ read_csv_dicts (dictKeys (test_login { url := "http://target/login" }
            (TransportResult.ok ⟨200, "welcome"⟩ 0) "alice" "pw1") :: rows)
        = [test_login { url := "http://target/login" }
            (TransportResult.ok ⟨200, "welcome"⟩ 0) "alice" "pw1",
          test_login { url := "http://target/login" }
            (TransportResult.ok ⟨403, "denied"⟩ 0) "alice" "pw2"].map stringifyDict) :=
  ⟨by decide, by decide,
    csv_round_trip_homogeneous _ _ (by decide) (by decide)⟩

/-- A concrete tester configuration used by the witnesses. -/
def tester₀ : LoginTester := { url := "http://target/login" }

/-- Witness for C2 at a concrete configuration and response. -/
theorem classifier_tie_break_success_witness :
    _is_successful_login
      { url := "http://target/login", success_indicator := Option.some "welcome",
        failure_indicator := Option.some "denied" }
      ⟨403, "denied but also welcome"⟩ = true :=
  classifier_tie_break_success _ _ "welcome" "denied"
    rfl (by decide) rfl (by decide) (by decide) (by decide)

/-- Witness for C3 at a concrete response with no indicators configured. -/
theorem classifier_status_fallback_witness :
    _is_successful_login tester₀ ⟨200, "any body at all"⟩ = true
      ↔ (⟨200, "any body at all"⟩ : Response).status_code = 200 :=
  classifier_status_fallback tester₀ ⟨200, "any body at all"⟩ rfl rfl

/-- Witness for C1 on a concrete 2×1 run whose every transport fails and
whose parallel completion order is reversed. -/
theorem run_tests_complete_witness :
    ((run_tests tester₀ (fun _ _ => TransportResult.exn "down")
        (fun _ _ => Option.none) ["a", "b"] ["x"] false
        [("b", "x"), ("a", "x")]).length
      = (["a", "b"] : List String).length * (["x"] : List String).length)
    ∧ ((run_tests tester₀ (fun _ _ => TransportResult.exn "down")
        (fun _ _ => Option.none) ["a", "b"] ["x"] true
        [("b", "x"), ("a", "x")]).length
      = (["a", "b"] : List String).length * (["x"] : List String).length)
    ∧ ((run_tests tester₀ (fun _ _ => TransportResult.exn "down")
        (fun _ _ => Option.none) ["a", "b"] ["x"] false
        [("b", "x"), ("a", "x")]).map credsOf
      = test_combinations ["a", "b"] ["x"])
    ∧ ((run_tests tester₀ (fun _ _ => TransportResult.exn "down")
        (fun _ _ => Option.none) ["a", "b"] ["x"] true
        [("b", "x"), ("a", "x")]).map credsOf).Perm
        (test_combinations ["a", "b"] ["x"]) :=
  run_tests_complete tester₀ _ _ _ _ _ (by decide) (by decide) (by decide)

/-- Witness for C4: in a 2×2 sequential run, record 2 (0-indexed) echoes
`(usernames[1], passwords[0])`. -/
theorem sequential_order_username_major_witness :
    ∃ u p, (["a", "b"] : List String)[2 / (["x", "y"] : List String).length]?
        = Option.some u
      ∧ (["x", "y"] : List String)[2 % (["x", "y"] : List String).length]?
        = Option.some p
      ∧ ((run_tests tester₀ (fun _ _ => TransportResult.ok ⟨200, "ok"⟩ 0)
          (fun _ _ => Option.none) ["a", "b"] ["x", "y"] false []).map
          credsOf)[2]? = Option.some (u, p) :=
  sequential_order_username_major tester₀ _ _ ["a", "b"] ["x", "y"] [] 2
    (by decide) (by decide)

/-- Witness for C6 on a concrete 1×2 run, sequential and parallel. -/
theorem report_summary_correct_witness :
    (∃ s : ReportSummary,
      generate_report (run_tests tester₀ (fun _ _ => TransportResult.ok ⟨200, "ok"⟩ 0)
          (fun _ _ => Option.none) ["a"] ["x", "y"] false [("a", "y"), ("a", "x")])
          = Option.some s
        ∧ s.total = (["a"] : List String).length * (["x", "y"] : List String).length
        ∧ s.successful = (test_combinations ["a"] ["x", "y"]).countP
            (fun up => decide (attemptOutcome tester₀
              ((fun _ _ => TransportResult.ok ⟨200, "ok"⟩ 0) up.1 up.2) Option.none
              = Outcome.Success))
        ∧ s.successful + s.failed = s.total
        ∧ s.success_rate = (s.successful : ℚ) / (s.total : ℚ))
    ∧ (∃ s : ReportSummary,
      generate_report (run_tests tester₀ (fun _ _ => TransportResult.ok ⟨200, "ok"⟩ 0)
          (fun _ _ => Option.none) ["a"] ["x", "y"] true [("a", "y"), ("a", "x")])
          = Option.some s
        ∧ s.total = (["a"] : List String).length * (["x", "y"] : List String).length
        ∧ s.successful = ([("a", "y"), ("a", "x")] : List (String × String)).countP
            (fun up => decide (attemptOutcome tester₀
              ((fun _ _ => TransportResult.ok ⟨200, "ok"⟩ 0) up.1 up.2)
              ((fun _ _ => Option.none) up.1 up.2) = Outcome.Success))
        ∧ s.successful + s.failed = s.total
        ∧ s.success_rate = (s.successful : ℚ) / (s.total : ℚ))
    ∧ generate_report [] = Option.none :=
  report_summary_correct tester₀ _ _ ["a"] ["x", "y"] [("a", "y"), ("a", "x")]
    (by decide) (by decide) (by decide)

/-- Witness for C7: a 1×1 sequential run whose single transport times out
yields the `Error`-shaped record. -/
theorem transport_error_recovered_locally_witness :
    errorOf (test_login tester₀ (TransportResult.exn "timed out") "u" "p")
        = Option.some "timed out"
      ∧ statusOf (test_login tester₀ (TransportResult.exn "timed out") "u" "p")
        = Option.none :=
  ((transport_error_recovered_locally tester₀ (fun _ _ => TransportResult.exn "timed out")
      (fun _ _ => Option.none) ["u"] ["p"] false [("u", "p")]
      (by decide) (fun _ _ => rfl))
    (test_login tester₀ (TransportResult.exn "timed out") "u" "p")
    (by decide)).1 "timed out" rfl
